import Mathlib

/-!
Verification of the Data Hub search-synchronisation and query-composition
layer: a shallow embedding of the relevant code with proofs of the claimed
properties.  Each source file is embedded close to its Python structure;
where code outside the packaged sources is needed, a definition is modelled
from the specification and documented as such.
-/

namespace DataHub

/-! ### Core archival model (datahub/core/models.py, BaseModel) -/

/-- The archival-related state of a `BaseModel` instance.
`archived_reason` is a nullable text field: `none` models SQL NULL and
`some s` a (possibly empty) string.  `archived_by` holds a user id,
`archived_on` a timestamp (modelled as a natural number). -/
structure ArchState where
  archived : Bool
  archived_by : Option Nat
  archived_reason : Option String
  archived_on : Option Nat
  deriving DecidableEq, Repr

/-- `BaseModel.archive(user, reason=None)`: sets `archived = True`,
`archived_by = user`, `archived_reason = reason`, `archived_on = now()`
(the current time is passed explicitly here). -/
def archive (s : ArchState) (user : Nat) (reason : Option String) (current_time : Nat) :
    ArchState :=
  { s with
    archived := true
    archived_by := some user
    archived_reason := reason
    archived_on := some current_time }

/-- `BaseModel.unarchive()`: sets `archived = False`,
`archived_reason = ''` (the empty string, not NULL), `archived_by = None`,
`archived_on = None`. -/
def unarchive (s : ArchState) : ArchState :=
  { s with
    archived := false
    archived_reason := some ""
    archived_by := none
    archived_on := none }

/-- A freshly created entity: not archived, all archival metadata NULL
(`archived_reason` is a nullable field with no default, so it is NULL). -/
def freshEntity : ArchState :=
  { archived := false, archived_by := none, archived_reason := none, archived_on := none }

/-! ### App registry (datahub/search/apps.py) -/

/-- A registered search app, keeping the attributes the registry functions
consult: its `name`, the model of its queryset (identified by a model name),
and the write alias of its ES document model. -/
structure SearchApp where
  name : String
  model : String
  writeAlias : String
  deriving DecidableEq, Repr

/-- The loaded registry `_load_search_apps()`: a finite mapping from app name
to app, represented as the underlying list of registered apps (assumed keyed
by distinct names, as a dict is). -/
abbrev Registry := List SearchApp

/-- `get_search_apps()`: all registered search apps, in registration order. -/
def get_search_apps (registry : Registry) : List SearchApp :=
  registry

/-- `get_search_apps_by_name(app_names=None)`: the apps whose name is in
`app_names`; a falsey `app_names` (Python `None`, or the empty list) selects
every app.  The Python guard `not app_names or search_app.name in app_names`
is truthy when `app_names` is `None` or empty. -/
def get_search_apps_by_name (registry : Registry) (app_names : Option (List String)) :
    List SearchApp :=
  (get_search_apps registry).filter fun search_app =>
    match app_names with
    | none => true
    | some names => names.isEmpty || names.contains search_app.name

/-- `get_search_app(app_name)`: dictionary lookup `_load_search_apps()[app_name]`.
A missing key raises `KeyError(app_name)`, an error carrying exactly
the unknown name. -/
def get_search_app (registry : Registry) (app_name : String) : Except String SearchApp :=
  match registry.find? (fun a => a.name = app_name) with
  | some a => Except.ok a
  | none => Except.error app_name

/-- `get_search_app_by_model(model)`: scans the registered apps for one whose
queryset model is `model`; raises `LookupError('search app for {model} not
found.')` when none matches. -/
def get_search_app_by_model (registry : Registry) (model : String) :
    Except String SearchApp :=
  match registry.find? (fun a => a.model = model) with
  | some a => Except.ok a
  | none => Except.error ("search app for " ++ model ++ " not found.")

/-- `are_apps_initialised(apps)`:
`all(index_exists(app.es_model.get_write_alias()) for app in apps)`.
`index_exists` queries the document store and is passed here as an oracle. -/
def are_apps_initialised (index_exists : String → Bool) (apps : List SearchApp) : Bool :=
  apps.all fun app => index_exists app.writeAlias

/-! ### Contact address mapping (datahub/search/contact/dict_utils.py) -/

/-- A Python attribute value as seen by the contact address mapper:
`vNone` is Python `None`, `vStr` a plain string attribute, `vRef` a related
model instance carrying an id and a name, `vObj` an id-and-name dict. -/
inductive AttrValue where
  | vNone
  | vStr (s : String)
  | vRef (id : String) (name : String)
  | vObj (id : String) (name : String)
  deriving DecidableEq, Repr

/-- Modelled from the spec: `dict_utils.id_name_dict`
(datahub/search/dict_utils.py, not included under src/).  Per the spec,
"relational single-reference fields map to id-and-name sub-objects"; an
absent reference yields an absent value.  Non-reference values are left
unchanged (the mapper never applies this to them). -/
def id_name_dict : AttrValue → AttrValue
  | AttrValue.vNone => AttrValue.vNone
  | AttrValue.vRef i n => AttrValue.vObj i n
  | v => v

/-- The employer company as seen by the mapper: its attributes reached via
`getattr(contact.company, 'trading_' + field)`. -/
structure PyCompany where
  attrs : String → AttrValue

/-- A contact as seen by the mapper: the `address_same_as_company` flag, the
employer `company`, and its own attributes reached via `getattr`. -/
structure PyContact where
  address_same_as_company : Bool
  company : PyCompany
  attrs : String → AttrValue

/-- The inner closure `get_field` of `computed_address_field`: when
`contact.address_same_as_company` holds, take the company's `trading_{field}`
attribute, otherwise the contact's own `field` attribute. -/
def get_field (field : String) (contact : PyContact) : AttrValue :=
  if contact.address_same_as_company then
    contact.company.attrs ("trading_" ++ field)
  else
    contact.attrs field

/-- `computed_address_field(field)`: returns the id-name-wrapping variant for
`'address_country'` and the raw variant for other fields. -/
def computed_address_field (field : String) : PyContact → AttrValue :=
  if field = "address_country" then
    fun contact => id_name_dict (get_field field contact)
  else
    get_field field

/-! ### OMIS Order field mapping (datahub/search/omis/models.py, Order.MAPPINGS) -/

/-- An id-and-name pair, the shape of a related constant entity. -/
structure IdName where
  id : String
  name : String
  deriving DecidableEq, Repr

/-- A contact or adviser entity as consumed by `contact_or_adviser_dict`. -/
structure Adviser where
  id : String
  first_name : String
  last_name : String
  name : String
  dit_team : Option IdName
  deriving DecidableEq, Repr

/-- An order-assignee (or subscriber) row: a link carrying an adviser. -/
structure OrderAssignee where
  adviser : Adviser
  deriving DecidableEq, Repr

/-- The Order entity attributes consumed by `Order.MAPPINGS`. -/
structure OrderEntity where
  id : String
  company : Option IdName
  contact : Option Adviser
  created_by : Option Adviser
  primary_market : Option IdName
  sector : Option IdName
  service_types : List IdName
  subscribers : List OrderAssignee
  assignees : List OrderAssignee
  billing_address_country : Option IdName
  deriving DecidableEq, Repr

/-- The id-and-name dict produced for a document field. -/
structure IdNameDict where
  id : String
  name : String
  deriving DecidableEq, Repr

/-- The dict produced for a contact or adviser document field; `dit_team` is
present only when requested with `include_dit_team`. -/
structure ContactOrAdviserDict where
  id : String
  first_name : String
  last_name : String
  name : String
  dit_team : Option IdNameDict
  deriving DecidableEq, Repr

/-- Modelled from the spec: `dict_utils.id_name_dict` applied to a related
entity reference (datahub/search/dict_utils.py, not included under src/):
a reference maps to its id-and-name sub-object, `None` maps to `None`. -/
def id_name_dict_of : Option IdName → Option IdNameDict
  | none => none
  | some e => some { id := e.id, name := e.name }

/-- Modelled from the spec: `dict_utils.contact_or_adviser_dict`
(datahub/search/dict_utils.py, not included under src/): a contact or
adviser maps to an id, first-name, last-name, name sub-object, with the team
included as an id-and-name sub-object when `include_dit_team` is set
(the spec: "contact/advisor also includes team"); `None` maps to `None`. -/
def contact_or_adviser_dict (obj : Option Adviser) (include_dit_team : Bool) :
    Option ContactOrAdviserDict :=
  match obj with
  | none => none
  | some a =>
      some
        { id := a.id
          first_name := a.first_name
          last_name := a.last_name
          name := a.name
          dit_team := if include_dit_team then id_name_dict_of a.dit_team else none }

/-- The document record produced by applying `Order.MAPPINGS`: one field per
mapped key, with the extraction function of each key applied to the entity. -/
structure OrderDocument where
  id : String
  company : Option IdNameDict
  contact : Option ContactOrAdviserDict
  created_by : Option ContactOrAdviserDict
  primary_market : Option IdNameDict
  sector : Option IdNameDict
  service_types : List (Option IdNameDict)
  subscribers : List (Option ContactOrAdviserDict)
  assignees : List (Option ContactOrAdviserDict)
  billing_address_country : Option IdNameDict
  deriving DecidableEq, Repr

/-- `Order.MAPPINGS` applied to an order entity: `'id'` via `str`,
single references via `id_name_dict` / `contact_or_adviser_dict`, and the
collection fields via per-element `id_name_dict` /
`contact_or_adviser_dict(..., include_dit_team=True)` over the collection. -/
def order_mappings (e : OrderEntity) : OrderDocument :=
  { id := e.id
    company := id_name_dict_of e.company
    contact := contact_or_adviser_dict e.contact false
    created_by := contact_or_adviser_dict e.created_by false
    primary_market := id_name_dict_of e.primary_market
    sector := id_name_dict_of e.sector
    service_types := e.service_types.map (fun c => id_name_dict_of (some c))
    subscribers := e.subscribers.map (fun c => contact_or_adviser_dict (some c.adviser) true)
    assignees := e.assignees.map (fun c => contact_or_adviser_dict (some c.adviser) true)
    billing_address_country := id_name_dict_of e.billing_address_country }

/-! ### Composite filters (datahub/search/export_country_history/views.py) -/

/-- `ExportCountryHistoryView.COMPOSITE_FILTERS`: the logical field
`'country'` remaps to the physical fields `'country.id'` and
`'export_countries.country.id'`. -/
def COMPOSITE_FILTERS : List (String × List String) :=
  [("country", ["country.id", "export_countries.country.id"])]

/-- A document as seen by the filter: an assignment of physical field names
to values (`none` for an absent field), values being identifiers. -/
abbrev FilterDoc := String → Option String

/-- Modelled from the spec: the composite-filter query composition (the
query builder, datahub/search/query_builder.py, is not included under src/).
Per the spec, "one logical key expands to N physical fields; match is
satisfied if ANY physical field matches (logical OR across the remap target
list)". -/
def composite_filter_match (physical_fields : List String) (v : String)
    (doc : FilterDoc) : Bool :=
  physical_fields.any fun f => decide (doc f = some v)

/-- The composed query for a logical composite field: look the field up in
the view's `COMPOSITE_FILTERS` table and OR the match across its remap
targets. -/
def composite_query (logical_field : String) (v : String) (doc : FilterDoc) :
    Option Bool :=
  (COMPOSITE_FILTERS.lookup logical_field).map
    fun physical_fields => composite_filter_match physical_fields v doc

/-! ### Permission-scoped search (datahub/search/apps.py, EXCLUDE_ALL) -/

/-- The value returned by `SearchApp.get_permission_filters`: `None` for no
restriction, a dict of field-match rules (results must match at least one),
or the `EXCLUDE_ALL` sentinel. -/
inductive PermissionFilters where
  | noRestriction
  | rules (rs : List (String × String))
  | excludeAll
  deriving DecidableEq, Repr

/-- The default `SearchApp.get_permission_filters(request)`: no
restriction. -/
def SearchApp.get_permission_filters : PermissionFilters :=
  PermissionFilters.noRestriction

/-- A search response body: a count and a result list. -/
structure SearchResult where
  count : Nat
  results : List FilterDoc

/-- One field-match rule holds of a document when the field carries the
rule's value. -/
def rule_matches (doc : FilterDoc) (rule : String × String) : Bool :=
  decide (doc rule.fst = some rule.snd)

/-- Modelled from the spec: the search execution path (datahub/search/
executors and views, not included under src/).  The permission filter set is
ANDed with the rest of the query; when the permission rule returns the
`EXCLUDE_ALL` sentinel the search answers `count 0, results []` immediately,
issuing no document-store round-trip.  Otherwise the store is queried once
(the store call may fail with a store error) and the permission rules — when
present — keep only documents matching at least one rule.  The second
component counts the store round-trips issued. -/
def execute_search (perm : PermissionFilters)
    (store : Unit → Except String (List FilterDoc)) :
    Except String SearchResult × Nat :=
  match perm with
  | PermissionFilters.excludeAll => (Except.ok { count := 0, results := [] }, 0)
  | PermissionFilters.noRestriction =>
      match store () with
      | Except.error e => (Except.error e, 1)
      | Except.ok docs => (Except.ok { count := docs.length, results := docs }, 1)
  | PermissionFilters.rules rs =>
      match store () with
      | Except.error e => (Except.error e, 1)
      | Except.ok docs =>
          let kept := docs.filter fun d => rs.any (rule_matches d)
          (Except.ok { count := kept.length, results := kept }, 1)

/-! ### Change-sync deletion (datahub/search/<app>/signals.py, not under src/) -/

/-- The document store for one index: documents keyed by entity id. -/
abbrev DocStore := List (String × OrderDocument)

/-- Modelled from the spec: `delete_document` as invoked by the delete
signal receiver (datahub/search/deletion and signals modules, not included
under src/; exercised by test_signals.py): removes the document with the
entity's id from the store. -/
def delete_document (store : DocStore) (entity_id : String) : DocStore :=
  List.filter (fun kv => decide (kv.fst ≠ entity_id)) store

/-- Modelled from the spec: a document lookup by entity id, as done by
`setup_es.get(...)`: raises not-found when no document carries the id. -/
def get_document (store : DocStore) (entity_id : String) :
    Except String OrderDocument :=
  match List.lookup entity_id store with
  | some d => Except.ok d
  | none => Except.error "not found"

/-- Modelled from the spec: the Change Sync Engine's reaction to an entity
deletion — "On deleted: remove the corresponding document". -/
def on_entity_deleted (store : DocStore) (entity_id : String) : DocStore :=
  delete_document store entity_id

/-! ### Sample data for the concrete witnesses -/

/-- A sample team reference. -/
def sampleTeam : IdName := { id := "team-1", name := "London" }

/-- A sample adviser. -/
def sampleAdviser : Adviser :=
  { id := "adv-1", first_name := "Ada", last_name := "Lee", name := "Ada Lee"
    dit_team := some sampleTeam }

/-- A sample OMIS order entity. -/
def sampleOrder : OrderEntity :=
  { id := "ord-1"
    company := some { id := "co-1", name := "Acme" }
    contact := some sampleAdviser
    created_by := some sampleAdviser
    primary_market := some { id := "mk-1", name := "France" }
    sector := none
    service_types := [{ id := "st-1", name := "Advice" }]
    subscribers := [{ adviser := sampleAdviser }]
    assignees := []
    billing_address_country := none }

/-- A sample country reference attribute value. -/
def sampleCountry : AttrValue := AttrValue.vRef "country-1" "United Kingdom"

/-- A contact whose address falls back to the employer's trading address. -/
def contactUsingCompanyAddress : PyContact :=
  { address_same_as_company := true
    company :=
      { attrs := fun f =>
          if f = "trading_address_country" then sampleCountry
          else AttrValue.vStr ("company " ++ f) }
    attrs := fun f => AttrValue.vStr ("contact " ++ f) }

/-- A contact using its own address fields. -/
def contactOwnAddress : PyContact :=
  { address_same_as_company := false
    company := { attrs := fun _ => AttrValue.vNone }
    attrs := fun f =>
      if f = "address_country" then sampleCountry
      else AttrValue.vStr ("own " ++ f) }

/-- A sample registry with one registered app. -/
def sampleRegistry : Registry :=
  [{ name := "company", model := "Company", writeAlias := "company-write" }]

/-- A sample document for the composite filter. -/
def sampleFilterDoc : FilterDoc := fun f =>
  if f = "export_countries.country.id" then some "country-1" else none

/-- A sample document store with one indexed order document. -/
def sampleStore : DocStore := [("ord-1", order_mappings sampleOrder)]

/-! ### Helper lemmas -/

/-- Filtering with an always-true predicate keeps the whole list. -/
theorem filter_true_of_forall {α : Type} (p : α → Bool) (h : ∀ a, p a = true)
    (l : List α) : List.filter p l = l := by
  induction l with
  | nil => rfl
  | cons hd tl ih => simp [List.filter_cons, h hd, ih]

/-- After `delete_document`, no document with the deleted id remains. -/
theorem lookup_delete_document (store : DocStore) (k : String) :
    List.lookup k (delete_document store k) = none := by
  induction store with
  | nil => rfl
  | cons hd tl ih =>
      obtain ⟨k1, d⟩ := hd
      by_cases h : k1 = k
      · simpa [delete_document, List.filter_cons, h] using ih
      · simp only [delete_document, List.filter_cons] at ih ⊢
        have hcond : decide ((k1, d).fst ≠ k) = true := by simp [h]
        rw [hcond]
        simp only [List.lookup]
        have hbeq : (k == k1) = false := by simp [Ne.symm h]
        rw [hbeq]
        exact ih

/-! ### Claim theorems -/

/-- Claim C1: field mapping is deterministic and side-effect-free — two
invocations of the per-field mapping functions (the OMIS Order MAPPINGS
extraction functions, and the contact computed-address mapper) on identical
entity state produce identical documents. -/
theorem c1_mapping_deterministic :
    (∀ e1 e2 : OrderEntity, e1 = e2 → order_mappings e1 = order_mappings e2) ∧
    (∀ (field : String) (c1 c2 : PyContact), c1 = c2 →
        computed_address_field field c1 = computed_address_field field c2) :=
  ⟨fun e1 e2 h => by rw [h], fun field c1 c2 h => by rw [h]⟩

/-- Witness for C1 at a concrete order and contact. -/
theorem c1_witness :
    order_mappings sampleOrder = order_mappings sampleOrder ∧
    computed_address_field "address_country" contactOwnAddress =
      computed_address_field "address_country" contactOwnAddress :=
  ⟨c1_mapping_deterministic.1 sampleOrder sampleOrder rfl,
   c1_mapping_deterministic.2 "address_country" contactOwnAddress contactOwnAddress rfl⟩

/-- Claim C2: for every composite-filter search with logical field F and
value V, the composed query matches exactly the documents in which at least
one of F's physical target fields equals V; in particular for 'country' in
the export-country-history view, a document matches iff 'country.id' or
'export_countries.country.id' equals V. -/
theorem c2_composite_filters :
    (∀ (F : String) (physical_fields : List String),
        COMPOSITE_FILTERS.lookup F = some physical_fields →
        ∀ (v : String) (doc : FilterDoc),
          (composite_query F v doc = some true ↔
            ∃ f ∈ physical_fields, doc f = some v)) ∧
    (∀ (v : String) (doc : FilterDoc),
        composite_query "country" v doc = some true ↔
          (doc "country.id" = some v ∨ doc "export_countries.country.id" = some v)) := by
  constructor
  · intro F physical_fields hF v doc
    simp [composite_query, hF, composite_filter_match, List.any_eq_true]
  · intro v doc
    have hF : COMPOSITE_FILTERS.lookup "country" =
        some ["country.id", "export_countries.country.id"] := rfl
    simp [composite_query, hF, composite_filter_match]

/-- Witness for C2 at the concrete 'country' composite filter. -/
theorem c2_witness :
    composite_query "country" "country-1" sampleFilterDoc = some true ↔
      ∃ f ∈ ["country.id", "export_countries.country.id"],
        sampleFilterDoc f = some "country-1" :=
  c2_composite_filters.1 "country" ["country.id", "export_countries.country.id"]
    rfl "country-1" sampleFilterDoc

/-- Claim C3: when the permission rule returns the EXCLUDE_ALL sentinel, the
search returns count 0 with an empty result list, issues no round-trip to
the document store, and raises no store error — whatever the store would
have answered. -/
theorem c3_exclude_all_short_circuits
    (store : Unit → Except String (List FilterDoc)) :
    execute_search PermissionFilters.excludeAll store =
      (Except.ok { count := 0, results := [] }, 0) :=
  rfl

/-- Claim C4: the value produced by computed_address_field(f) is the
employer company's trading_{f} attribute when address_same_as_company is
set, and the contact's own attribute f otherwise; for f = 'address_country'
the resolved value is additionally wrapped as an id-and-name sub-object. -/
theorem c4_computed_address_fallback (f : String) (c : PyContact) :
    (c.address_same_as_company = true → f ≠ "address_country" →
        computed_address_field f c = c.company.attrs ("trading_" ++ f)) ∧
    (c.address_same_as_company = false → f ≠ "address_country" →
        computed_address_field f c = c.attrs f) ∧
    (c.address_same_as_company = true →
        computed_address_field "address_country" c =
          id_name_dict (c.company.attrs "trading_address_country")) ∧
    (c.address_same_as_company = false →
        computed_address_field "address_country" c =
          id_name_dict (c.attrs "address_country")) ∧
    (∀ i n, id_name_dict (AttrValue.vRef i n) = AttrValue.vObj i n) := by
  refine ⟨?_, ?_, ?_, ?_, fun i n => rfl⟩
  · intro htrue hne
    simp [computed_address_field, hne, get_field, htrue]
  · intro hfalse hne
    simp [computed_address_field, hne, get_field, hfalse]
  · intro htrue
    simp [computed_address_field, get_field, htrue]
  · intro hfalse
    simp [computed_address_field, get_field, hfalse]

/-- Witness for C4 at concrete contacts for both flag values. -/
theorem c4_witness :
    computed_address_field "address_1" contactUsingCompanyAddress =
      contactUsingCompanyAddress.company.attrs "trading_address_1" ∧
    computed_address_field "address_country" contactOwnAddress =
      id_name_dict (contactOwnAddress.attrs "address_country") :=
  ⟨(c4_computed_address_fallback "address_1" contactUsingCompanyAddress).1
      rfl (by decide),
   (c4_computed_address_fallback "address_country" contactOwnAddress).2.2.2.1
      rfl⟩

/-- Claim C5: looking up an unregistered entity-type name or model fails:
get_search_app yields a lookup error carrying exactly the unknown name,
get_search_app_by_model yields a LookupError naming the model, and neither
returns a value. -/
theorem c5_registry_lookup_failure (registry : Registry) (app_name model : String)
    (hn : ∀ a ∈ registry, a.name ≠ app_name)
    (hm : ∀ a ∈ registry, a.model ≠ model) :
    get_search_app registry app_name = Except.error app_name ∧
    get_search_app_by_model registry model =
      Except.error ("search app for " ++ model ++ " not found.") ∧
    (∀ a, get_search_app registry app_name ≠ Except.ok a) ∧
    (∀ a, get_search_app_by_model registry model ≠ Except.ok a) := by
  have h1 : List.find? (fun a => a.name = app_name) registry = none := by
    rw [List.find?_eq_none]
    intro a ha
    simp [hn a ha]
  have h2 : List.find? (fun a => a.model = model) registry = none := by
    rw [List.find?_eq_none]
    intro a ha
    simp [hm a ha]
  refine ⟨?_, ?_, ?_, ?_⟩
  · simp [get_search_app, h1]
  · simp [get_search_app_by_model, h2]
  · intro a
    simp [get_search_app, h1]
  · intro a
    simp [get_search_app_by_model, h2]

/-- Witness for C5 at a concrete registry and unknown names. -/
theorem c5_witness :
    get_search_app sampleRegistry "unknown-app" = Except.error "unknown-app" ∧
    get_search_app_by_model sampleRegistry "UnknownModel" =
      Except.error ("search app for " ++ "UnknownModel" ++ " not found.") :=
  ⟨(c5_registry_lookup_failure sampleRegistry "unknown-app" "UnknownModel"
      (by decide) (by decide)).1,
   (c5_registry_lookup_failure sampleRegistry "unknown-app" "UnknownModel"
      (by decide) (by decide)).2.1⟩

/-- Claim C6: are_apps_initialised returns true iff the write alias of every
given app's document model resolves to an existing index; for a single app
this is exactly the existence of its write alias's index. -/
theorem c6_initialised_iff (index_exists : String → Bool) (apps : List SearchApp) :
    (are_apps_initialised index_exists apps = true ↔
        ∀ app ∈ apps, index_exists app.writeAlias = true) ∧
    (∀ app : SearchApp,
        are_apps_initialised index_exists [app] = true ↔
          index_exists app.writeAlias = true) := by
  refine ⟨?_, ?_⟩
  · simp [are_apps_initialised, List.all_eq_true]
  · intro app
    simp [are_apps_initialised]

/-- Claim C7 counterexample: archival is not exactly reversible — an entity
created with NULL archival metadata, archived and then unarchived, does not
return to its pre-archive state, because archived_reason ends as the empty
string instead of NULL. -/
theorem c7_counterexample :
    unarchive (archive freshEntity 1 (some "duplicate") 5) ≠ freshEntity := by
  decide

/-- Claim C7 (amended): unarchive after archive(user, reason) restores
archived to False and archived_by and archived_on to None, but sets
archived_reason to the empty string rather than its pre-archive value; the
full pre-archive state is restored precisely when that state was
archived = False, archived_by = None, archived_on = None and
archived_reason = the empty string. -/
theorem c7_amended_unarchive (s : ArchState) (user : Nat) (reason : Option String)
    (t : Nat) :
    unarchive (archive s user reason t) =
      { archived := false, archived_by := none, archived_reason := some ""
        archived_on := none } ∧
    (unarchive (archive s user reason t) = s ↔
      s = { archived := false, archived_by := none, archived_reason := some ""
            archived_on := none }) :=
  ⟨rfl, eq_comm⟩

/-- Claim C8: after an entity whose document is present in the index is
deleted from the primary store, the Change Sync Engine removes the
document, and a subsequent lookup for it returns not-found. -/
theorem c8_deleted_not_found (store : DocStore) (entity_id : String)
    (d : OrderDocument) (h : get_document store entity_id = Except.ok d) :
    get_document (on_entity_deleted store entity_id) entity_id =
      Except.error "not found" := by
  simp [get_document, on_entity_deleted, lookup_delete_document]

/-- Witness for C8 at a concrete store holding one document. -/
theorem c8_witness :
    get_document (on_entity_deleted sampleStore "ord-1") "ord-1" =
      Except.error "not found" :=
  c8_deleted_not_found sampleStore "ord-1" (order_mappings sampleOrder) rfl

/-- Claim C9: unarchive sets archived_reason to the empty string rather than
restoring or nulling it — an entity created with archived_reason = NULL,
archived and then unarchived, ends with archived_reason = the empty string,
archived_by and archived_on reset to None and archived False. -/
theorem c9_unarchive_sets_empty_reason (user : Nat) (reason : Option String)
    (t : Nat) :
    (unarchive (archive freshEntity user reason t)).archived_reason = some "" ∧
    (unarchive (archive freshEntity user reason t)).archived_by = none ∧
    (unarchive (archive freshEntity user reason t)).archived_on = none ∧
    (unarchive (archive freshEntity user reason t)).archived = false ∧
    (unarchive (archive freshEntity user reason t)).archived_reason ≠
      freshEntity.archived_reason :=
  ⟨rfl, rfl, rfl, rfl, by simp [unarchive, archive, freshEntity]⟩

/-- Claim C10: for a falsey argument — None or the empty list —
get_search_apps_by_name returns all registered search apps, not an empty
list. -/
theorem c10_falsey_returns_all (registry : Registry) :
    get_search_apps_by_name registry none = get_search_apps registry ∧
    get_search_apps_by_name registry (some []) = get_search_apps registry :=
  ⟨filter_true_of_forall _ (fun _ => rfl) registry,
   filter_true_of_forall _ (fun _ => rfl) registry⟩

end DataHub
